import Mathlib

/-!
Shallow embedding of the Natours backend core (JS/Express/Mongoose) for
specification checking: the user data model with its Mongoose query/save
middleware (`src/models/userModel.js`), the authentication middleware chain
(`src/controllers/authController.js`), the current-user account handlers
(`userController.js`: `filterObj`, `updateMe`, `deleteMe`), and the
query-feature builder used by `getAllTours`.

Modelling conventions:
- Timestamps are `Nat`: epoch milliseconds for `Date` values
  (`passwordChangedAt`, `passwordResetExpires`, `Date.now()`), epoch seconds
  for the JWT `iat` field, exactly as the source mixes them.
- The external crypto primitives (sha256 hex digest, bcrypt hash) are modelled
  as injective tagging functions: the code only ever compares digests for
  equality and never inverts them, so any injection is a faithful model.
- A Mongo document store is a `List User`; `findOne`/`findById`/
  `findByIdAndUpdate` return the first match, and persistence (`save`,
  `findByIdAndUpdate`) replaces every document with the matching `_id`.
- JS falsiness of request-body values is modelled by `JsVal.truthy`.
- Thrown errors (`AppError`, Mongoose `ValidationError`) surface through
  `Except AppErr`; `catchAsync` forwarding to the global error handler is the
  `.error` case.  An `AppError` constructed without a status code (the
  `forgotPassword` catch block passes `500` outside the constructor) carries
  `none` and the terminal handler defaults it to 500 (`effectiveStatus`).
-/

/-- A JSON-ish request-body value, with JS truthiness. -/
inductive JsVal where
  | vStr (s : String)
  | vBool (b : Bool)
  | vNum (n : Int)
  | vNull
deriving Repr, DecidableEq

/-- JS truthiness of a body value: `""`, `false`, `0` and `null` are falsy. -/
def JsVal.truthy : JsVal → Bool
  | .vStr s => !(s == "")
  | .vBool b => b
  | .vNum n => !(n == 0)
  | .vNull => false

/-- First binding of key `k` in a JS-object-like association list
(JS objects have unique keys; a lookup takes the first binding). -/
def bodyGet (obj : List (String × JsVal)) (k : String) : Option JsVal :=
  (obj.find? (fun kv => kv.fst == k)).map (fun kv => kv.snd)

/-- sha256 hex digest (external `crypto` module), modelled as an injective
tagging function: the source only compares digests for equality. -/
def sha256Hex (s : String) : String := "sha256$" ++ s

/-- bcrypt hash at cost 12 (external `bcryptjs`), modelled as an injective
tagging function; the salt is irrelevant to the properties checked here. -/
def bcryptHash (s : String) : String := "bcrypt12$" ++ s

/-- A `User` document as declared by `userSchema` in `src/models/userModel.js`.
`id` stands for Mongo `_id`.  Optional fields are `Option`; `active` defaults
to `true` on creation (`default: true`). -/
structure User where
  id : Nat
  name : String
  email : String
  photo : Option String := none
  role : String := "user"
  password : String
  passwordConfirm : Option String := none
  passwordChangedAt : Option Nat := none
  passwordResetToken : Option String := none
  passwordResetExpires : Option Nat := none
  active : Bool := true
deriving Repr, DecidableEq

/-- Method `userSchema.methods.changedPasswordAfter` (userModel.js:100-111):
if `passwordChangedAt` is set, compare the JWT issue time (seconds) with
`parseInt(passwordChangedAt.getTime() / 1000, 10)` (truncating division);
return `JWTTimestamp < changedTimestamp`.  Without a `passwordChangedAt`
the password was never changed and the result is `false`. -/
def changedPasswordAfter (u : User) (jwtTimestamp : Nat) : Bool :=
  match u.passwordChangedAt with
  | some ms => decide (jwtTimestamp < ms / 1000)
  | none => false

/-- Method `userSchema.methods.createPasswordResetToken` (userModel.js:114-129):
given the random token produced by `crypto.randomBytes` (an input here, since
randomness is external), store its sha256 digest in `passwordResetToken`, set
`passwordResetExpires` to now + 10 minutes (ms), and return the plain token. -/
def createPasswordResetToken (u : User) (resetToken : String) (now : Nat) :
    String × User :=
  (resetToken,
    { u with
      passwordResetToken := some (sha256Hex resetToken)
      passwordResetExpires := some (now + 10 * 60 * 1000) })

/-- The `userSchema.pre(/^find/)` hook (userModel.js:81-85) adds
`active: { $ne: false }` to every find-family query; in this model every
lookup predicate is therefore conjoined with `u.active = true`. `findById`
resolves a user by `_id` through that hook. -/
def findById (db : List User) (uid : Nat) : Option User :=
  db.find? (fun u => decide (u.id = uid) && u.active)

/-- Lookup `User.findOne({ email })` through the `pre(/^find/)` active-filter hook. -/
def findOneByEmail (db : List User) (email : String) : Option User :=
  db.find? (fun u => (u.email == email) && u.active)

/-- Lookup `User.findOne({ passwordResetToken: hashedToken, passwordResetExpires:
{ $gt: Date.now() } })` (authController.js:211-214), through the
`pre(/^find/)` active-filter hook. -/
def resetFind (db : List User) (hashed : String) (now : Nat) : Option User :=
  db.find? (fun u =>
    (u.passwordResetToken == some hashed) &&
    (match u.passwordResetExpires with
     | some e => decide (now < e)
     | none => false) &&
    u.active)

/-- Persist a document: Mongoose `save`/`findByIdAndUpdate` writes back by
`_id`, replacing every stored document with that id. -/
def persist (db : List User) (u : User) : List User :=
  db.map (fun v => if v.id = u.id then u else v)

/-- Error kinds raised by the embedded handlers, one per distinct `AppError`
construction site (plus Mongoose validation failure). -/
inductive ErrKind where
  /-- protect: "You are not logged in! Please log in to get access." -/
  | notLoggedIn
  /-- protect: jwt.verify threw (bad signature, malformed, or expired). -/
  | badToken
  /-- protect: "The user belonging to this token does no longer exist." -/
  | userGone
  /-- protect: "User recently changed password! Please log in again." -/
  | passwordChanged
  /-- restrictTo: "You do not have permission to perform this action". -/
  | forbidden
  /-- forgotPassword: "There is no user with email address." -/
  | noUserForEmail
  /-- forgotPassword catch: "There was an error sending the email. ..." -/
  | emailSendFailed
  /-- resetPassword: "Token is invalid or has expired". -/
  | invalidOrExpiredToken
  /-- Mongoose ValidationError thrown by `save()`. -/
  | validationFailed
  /-- updateMe: "This route is not for password updates. ..." -/
  | passwordUpdateNotAllowed
deriving Repr, DecidableEq

/-- An error reaching the global error handler.  `status` is the code passed
to the `AppError` constructor (`none` when the call site passed no code, as in
the `forgotPassword` catch block, or when a raw ValidationError is thrown). -/
structure AppErr where
  status : Option Nat
  kind : ErrKind
deriving Repr, DecidableEq

/-- The global error handler defaults a missing status code to 500
(`err.statusCode = err.statusCode || 500`, errorController). -/
def effectiveStatus (e : AppErr) : Nat := e.status.getD 500

/-- Verified JWT payload: `jwt.sign({ id }, ...)` plus the `iat` claim
(seconds) added by the jsonwebtoken library. -/
structure JwtPayload where
  id : Nat
  iat : Nat
deriving Repr, DecidableEq

/-- Environment of `protect`: the (external) JWT verifier for the server
secret — `none` models `jwt.verify` throwing, on a bad or expired token —
and the user collection. -/
structure ProtectEnv where
  verify : String → Option JwtPayload
  db : List User

/-- JS `String.prototype.split(' ')`: split on every single space, keeping
empty pieces (own structural definition so the kernel can evaluate it). -/
def splitCharsOn (c : Char) : List Char → List (List Char)
  | [] => [[]]
  | x :: xs =>
    if x = c then [] :: splitCharsOn c xs
    else
      match splitCharsOn c xs with
      | [] => [[x]]
      | g :: gs => (x :: g) :: gs

/-- Split `header.split(' ')` as in JS. -/
def jsSplitSpace (s : String) : List String :=
  (splitCharsOn ' ' s.data).map String.mk

/-- JS `String.prototype.startsWith` (kernel-evaluable form). -/
def jsStartsWith (s pre : String) : Bool :=
  pre.data.isPrefixOf s.data

/-- Token extraction of `protect` (authController.js:101-106): if the
authorization header exists and starts with `"Bearer"` (no trailing space in
the source), the token is `header.split(' ')[1]`; otherwise `token` stays
undefined. -/
def tokenFromHeader (authHeader : Option String) : Option String :=
  match authHeader with
  | none => none
  | some h =>
    if jsStartsWith h "Bearer" then (jsSplitSpace h).get? 1
    else none

/-- Middleware `exports.protect` (authController.js:97-139): extract the bearer token
(401 `notLoggedIn` if undefined or empty, since JS `!token` is true for both),
verify it (a throwing `jwt.verify` surfaces as 401 `badToken` through the
global handler), resolve the user by the embedded id through the active-filter
hook (401 `userGone` if none), reject if the password changed after the token
was issued (401 `passwordChanged`), else attach the user. -/
def protect (env : ProtectEnv) (authHeader : Option String) :
    Except AppErr User :=
  match tokenFromHeader authHeader with
  | none => .error ⟨some 401, .notLoggedIn⟩
  | some t =>
    if t = "" then .error ⟨some 401, .notLoggedIn⟩
    else
      match env.verify t with
      | none => .error ⟨some 401, .badToken⟩
      | some payload =>
        match findById env.db payload.id with
        | none => .error ⟨some 401, .userGone⟩
        | some currentUser =>
          if changedPasswordAfter currentUser payload.iat then
            .error ⟨some 401, .passwordChanged⟩
          else .ok currentUser

/-- Middleware `exports.restrictTo(...roles)` (authController.js:144-153): 403 unless
the attached user's role is a member of the allowed roles. -/
def restrictTo (roles : List String) (u : User) : Except AppErr Unit :=
  if u.role ∈ roles then .ok ()
  else .error ⟨some 403, .forbidden⟩

/-- Middleware composition: the downstream handler runs only when
`restrictTo` called `next()` without an error. -/
def runRestricted {α : Type} (roles : List String) (u : User)
    (handler : User → α) : Except AppErr α :=
  match restrictTo roles u with
  | .error e => .error e
  | .ok _ => .ok (handler u)

/-- Equality of handler results is decidable (needed to evaluate concrete
scenarios). -/
instance {ε α : Type} [DecidableEq ε] [DecidableEq α] :
    DecidableEq (Except ε α) := fun
  | .ok a, .ok b =>
    if h : a = b then .isTrue (h ▸ rfl)
    else .isFalse (fun hc => h (Except.ok.inj hc))
  | .ok _, .error _ => .isFalse (fun hc => Except.noConfusion hc)
  | .error _, .ok _ => .isFalse (fun hc => Except.noConfusion hc)
  | .error e, .error f =>
    if h : e = f then .isTrue (h ▸ rfl)
    else .isFalse (fun hc => h (Except.error.inj hc))

/-- Outcome of a state-changing handler: the response (or error forwarded to
the global handler) plus the resulting user collection. -/
structure HandlerOutcome where
  result : Except AppErr Unit
  db : List User
deriving Repr, DecidableEq

/-- Outcome of `forgotPassword`, additionally recording whether `sendEmail`
was invoked at all. -/
structure ForgotOutcome where
  result : Except AppErr Unit
  db : List User
  emailAttempted : Bool
deriving Repr, DecidableEq

/-- The catch-block revert: `user.passwordResetToken = undefined;
user.passwordResetExpires = undefined` (authController.js:189-190). -/
def clearResetFields (u : User) : User :=
  { u with passwordResetToken := none, passwordResetExpires := none }

/-- Handler `exports.forgotPassword` (authController.js:158-198).
Inputs from the outside world: `newToken` is the random token produced by
`crypto.randomBytes`, `now` is `Date.now()` (ms), `emailOk` tells whether the
external `sendEmail` call succeeds or throws.
Steps: find the user by email (through the active-filter hook); 404 if none,
with no state change and no email call.  Otherwise persist the hashed token
and 10-minute expiry (`save({ validateBeforeSave: false })` skips validation;
the two pre-save hooks are no-ops since the password is unmodified), then send
the email.  On email failure the catch block unsets both token fields and
saves again, and calls `next(new AppError('There was an error sending the
email. Try again later!'), 500)` — the 500 is an argument to `next`, not to
the constructor, so the error carries no status code and the global handler
defaults it to 500. -/
def forgotPassword (db : List User) (email : String) (newToken : String)
    (now : Nat) (emailOk : Bool) : ForgotOutcome :=
  match findOneByEmail db email with
  | none => ⟨.error ⟨some 404, .noUserForEmail⟩, db, false⟩
  | some user =>
    let (_, user') := createPasswordResetToken user newToken now
    let db1 := persist db user'
    if emailOk then ⟨.ok (), db1, true⟩
    else ⟨.error ⟨none, .emailSendFailed⟩,
      persist db1 (clearResetFields user'), true⟩

/-- Validation run by `user.save()` on the fields the reset flow modifies:
`passwordConfirm` must equal `password` (schema validator) and `password`
must have `minlength: 8`.  The remaining schema validators concern fields the
reset flow leaves untouched on an already-valid document. -/
def validPasswordPair (pw pwc : String) : Bool :=
  (pwc == pw) && decide (8 ≤ pw.data.length)

/-- Handler `exports.resetPassword` (authController.js:203-229).
Hash the URL token, look the user up by stored hash and unexpired expiry
(through the active-filter hook); 400 `invalidOrExpiredToken` if none.
Otherwise set the new password and passwordConfirm, unset both reset fields
in memory, and call `user.save()`: validation runs first (a failure throws a
ValidationError and persists nothing), then the two pre-save hooks run —
bcrypt-hash the password and drop passwordConfirm; stamp `passwordChangedAt =
Date.now() - 1000` since the password is modified and the document is not new
— and the document is written back. -/
def resetPassword (db : List User) (token : String) (pw pwc : String)
    (now : Nat) : HandlerOutcome :=
  let hashedToken := sha256Hex token
  match resetFind db hashedToken now with
  | none => ⟨.error ⟨some 400, .invalidOrExpiredToken⟩, db⟩
  | some user =>
    if validPasswordPair pw pwc then
      let saved := { user with
        password := bcryptHash pw
        passwordConfirm := none
        passwordResetToken := none
        passwordResetExpires := none
        passwordChangedAt := some (now - 1000) }
      ⟨.ok (), persist db saved⟩
    else ⟨.error ⟨none, .validationFailed⟩, db⟩

/-- Utility `filterObj` (userController: unnamed/part_003:11-17): keep only the
bindings whose key is among the allowed fields, preserving iteration order. -/
def filterObj (obj : List (String × JsVal)) (allowedFields : List String) :
    List (String × JsVal) :=
  obj.filter (fun kv => kv.fst ∈ allowedFields)

/-- Update `User.findByIdAndUpdate(id, upd)` applying an update object to a found
document: Mongoose assigns each schema path present in the update (unknown
keys are dropped under default strict mode; values of the wrong shape for a
path would be cast errors and are ignored here, as no claim exercises them).
Date-valued paths are set from numeric values (epoch ms). -/
def applyUserUpdate (u : User) (upd : List (String × JsVal)) : User :=
  { u with
    name := match bodyGet upd "name" with
      | some (.vStr s) => s
      | _ => u.name
    email := match bodyGet upd "email" with
      | some (.vStr s) => s
      | _ => u.email
    photo := match bodyGet upd "photo" with
      | some (.vStr s) => some s
      | _ => u.photo
    role := match bodyGet upd "role" with
      | some (.vStr s) => s
      | _ => u.role
    password := match bodyGet upd "password" with
      | some (.vStr s) => s
      | _ => u.password
    passwordResetToken := match bodyGet upd "passwordResetToken" with
      | some (.vStr s) => some s
      | _ => u.passwordResetToken
    passwordResetExpires := match bodyGet upd "passwordResetExpires" with
      | some (.vNum n) => some n.toNat
      | _ => u.passwordResetExpires
    passwordChangedAt := match bodyGet upd "passwordChangedAt" with
      | some (.vNum n) => some n.toNat
      | _ => u.passwordChangedAt
    active := match bodyGet upd "active" with
      | some (.vBool b) => b
      | _ => u.active }

/-- Handler `exports.updateMe` (userController: unnamed/part_003:43-70): if
`req.body.password` or `req.body.passwordConfirm` is truthy, 400 and no state
change.  Otherwise filter the body down to `name`/`email` and
`findByIdAndUpdate(req.user.id, filteredBody)` — the find goes through the
active-filter hook; a null result is still answered with 200. -/
def updateMe (db : List User) (uid : Nat) (body : List (String × JsVal)) :
    HandlerOutcome :=
  if ((bodyGet body "password").map JsVal.truthy).getD false ||
     ((bodyGet body "passwordConfirm").map JsVal.truthy).getD false then
    ⟨.error ⟨some 400, .passwordUpdateNotAllowed⟩, db⟩
  else
    let filteredBody := filterObj body ["name", "email"]
    match findById db uid with
    | none => ⟨.ok (), db⟩
    | some user => ⟨.ok (), persist db (applyUserUpdate user filteredBody)⟩

/-- Handler `exports.deleteMe` (userController: unnamed/part_003:78-85):
`findByIdAndUpdate(req.user.id, { active: false })`, through the
active-filter hook; always answers 204. -/
def deleteMe (db : List User) (uid : Nat) : List User :=
  match findById db uid with
  | none => db
  | some user => persist db { user with active := false }

/-- A value in the raw request-query mapping (`req.query`, parsed by `qs`):
either a literal string or a nested mapping of operator key to literal, as in
`?price[lte]=500`. -/
inductive QueryVal where
  | lit (s : String)
  | ops (m : List (String × String))
deriving Repr, DecidableEq

/-- The reserved control keys excluded by `filter()`. -/
def reservedKeys : List String := ["page", "sort", "limit", "fields"]

/-- The comparison-operator tokens recognised inside a nested filter value. -/
def comparisonOps : List String := ["gte", "gt", "lte", "lt"]

/-- The storage-level (Mongo) query assembled by the builder: the applied
filter document plus the pagination parameters. -/
structure MongoQuery where
  filterDoc : List (String × QueryVal) := []
  skipN : Nat := 0
  limitN : Option Nat := none
deriving Repr, DecidableEq

/-- Modelled from the spec: `utils/apiFeatures.js` (the `APIFeatures` class
required by `tourController.js`) is not among the provided sources; the
builder state is taken from spec §4.1 — an unexecuted base query plus the raw
query-parameter mapping, with each operation returning the builder. -/
structure APIFeatures where
  query : MongoQuery
  queryString : List (String × QueryVal)
deriving Repr, DecidableEq

/-- Modelled from the spec: rewrite of a nested filter value — "rewrites any
of {gte, gt, lte, lt} appearing as a nested key into the storage engine's
comparison-operator syntax" (a `$` marker prefix, §3/§4.1/§6). -/
def rewriteOps : QueryVal → QueryVal
  | .lit s => .lit s
  | .ops m =>
    .ops (m.map (fun kv =>
      (if kv.fst ∈ comparisonOps then "$" ++ kv.fst else kv.fst, kv.snd)))

/-- Modelled from the spec: the filter document built by `filter()` —
"removes reserved keys {page, sort, limit, fields} from a copy of the raw
mapping; rewrites any of {gte, gt, lte, lt} appearing as a nested key into
the storage engine's comparison-operator syntax" (§4.1). -/
def buildFilter (raw : List (String × QueryVal)) :
    List (String × QueryVal) :=
  ((raw.filter (fun kv => kv.fst ∉ reservedKeys)).map
    (fun kv => (kv.fst, rewriteOps kv.snd)))

/-- Modelled from the spec: `APIFeatures.filter()` (missing
`utils/apiFeatures.js`) — "applies the resulting filter to the base query"
(§4.1); the raw mapping is copied, not mutated, so `queryString` is kept. -/
def APIFeatures.filter (f : APIFeatures) : APIFeatures :=
  { f with query := { f.query with filterDoc := buildFilter f.queryString } }

/-- Modelled from the spec: the "safe-parse-or-default rule" (§4.1) for
`page`/`limit` — "string→integer, defaulting as in §3" with "(page:int ≥1
default 1, limit:int ≥1 default 100)"; "malformed numeric strings for
page/limit coerce to the defaults ... not a thrown error" and "for all
`page`/`limit` inputs that are non-numeric or negative, the builder falls
back to defaults" (§8).  Own structural digit parser so the kernel can
evaluate it; a negative string has a non-digit `-` and parses to `none`. -/
def parseDigits : List Char → Option Nat
  | [] => some 0
  | c :: cs =>
    if c.isDigit then
      (parseDigits cs).map (fun n =>
        (c.toNat - '0'.toNat) * 10 ^ cs.length + n)
    else none

/-- Modelled from the spec: safe parse of a decimal string, `none` on the
empty string or any non-digit character (hence on negatives). -/
def parseNatString (s : String) : Option Nat :=
  if s.data = [] then none else parseDigits s.data

/-- Modelled from the spec: parse-or-default for one control value — a
missing, non-literal, malformed or sub-minimum value yields the default. -/
def parseOrDefault (v : Option QueryVal) (d : Nat) : Nat :=
  match v with
  | some (.lit s) =>
    match parseNatString s with
    | some n => if 1 ≤ n then n else d
    | none => d
  | _ => d

/-- First binding of `k` in the raw query mapping. -/
def queryGet (raw : List (String × QueryVal)) (k : String) : Option QueryVal :=
  (raw.find? (fun kv => kv.fst == k)).map (fun kv => kv.snd)

/-- Modelled from the spec: `APIFeatures.paginate()` (missing
`utils/apiFeatures.js`) — "reads `page` and `limit` (string→integer,
defaulting as in §3), computes skip/limit and applies to the base query"
with "derived skip = (page-1)×limit" (§3, §4.1).  Total: no exception is
raised on any input. -/
def APIFeatures.paginate (f : APIFeatures) : APIFeatures :=
  let page := parseOrDefault (queryGet f.queryString "page") 1
  let lim := parseOrDefault (queryGet f.queryString "limit") 100
  { f with query := { f.query with skipN := (page - 1) * lim, limitN := some lim } }

/-- The nested operator keys of a filter value (empty for a literal). -/
def nestedKeys : QueryVal → List String
  | .lit _ => []
  | .ops m => m.map Prod.fst

/-- The nested operator bindings of a filter value. -/
def opsList : QueryVal → List (String × String)
  | .lit _ => []
  | .ops m => m

/-- Concrete fixtures used by the scenario theorems and witnesses below. -/
def resetUser : User :=
  { id := 1, name := "Ada", email := "ada@example.com",
    password := bcryptHash "oldpassword",
    passwordResetToken := some (sha256Hex "tok"),
    passwordResetExpires := some 1000000 }

def resetDb : List User := [resetUser]

def staleUser : User :=
  { id := 2, name := "Bo", email := "bo@example.com",
    password := bcryptHash "password2", passwordChangedAt := some 1500 }

/-- Verifier accepting exactly the token "tok2" issued at `iat = 1` s for
user 2, whose password changed at 1500 ms. -/
def staleEnv : ProtectEnv :=
  { verify := fun t => if t == "tok2" then some ⟨2, 1⟩ else none,
    db := [staleUser] }

def staleUser3 : User :=
  { id := 3, name := "Cy", email := "cy@example.com",
    password := bcryptHash "password3", passwordChangedAt := some 5000 }

/-- Verifier accepting exactly the token "tok3" issued at `iat = 1` s for
user 3, whose password changed at 5000 ms. -/
def staleEnv3 : ProtectEnv :=
  { verify := fun t => if t == "tok3" then some ⟨3, 1⟩ else none,
    db := [staleUser3] }

def plainUser : User :=
  { id := 6, name := "Di", email := "di@example.com",
    password := bcryptHash "password6" }

/-- Verifier accepting exactly the token "tok6" for user 6. -/
def plainEnv : ProtectEnv :=
  { verify := fun t => if t == "tok6" then some ⟨6, 10⟩ else none,
    db := [plainUser] }

def frameUser : User :=
  { id := 9, name := "Eve", email := "eve@example.com",
    password := bcryptHash "password9" }

def frameDb : List User := [frameUser]

def goneUser : User :=
  { id := 10, name := "Flo", email := "flo@example.com",
    password := bcryptHash "password10" }

def goneDb : List User := [goneUser]

/-- Verifier accepting exactly the token "tok10" for user 10. -/
def goneVerify : String → Option JwtPayload :=
  fun t => if t == "tok10" then some ⟨10, 10⟩ else none

-- helper: no key filtered out by filterObj survives a lookup
theorem bodyGet_filterObj_eq_none (body : List (String × JsVal))
    (allowed : List String) (k : String) (hk : k ∉ allowed) :
    bodyGet (filterObj body allowed) k = none := by
  have hfind : (filterObj body allowed).find? (fun kv => kv.fst == k) = none := by
    rw [List.find?_eq_none]
    intro kv hkv
    rw [filterObj, List.mem_filter] at hkv
    have h2 : kv.fst ∈ allowed := by
      have := hkv.2
      simpa using this
    simp only [beq_iff_eq]
    intro he
    exact hk (he ▸ h2)
  simp [bodyGet, hfind]

theorem dollar_prefixed_not_comparison (k : String) (hk : k ∈ comparisonOps) :
    ("$" ++ k) ∉ comparisonOps := by
  fin_cases hk <;> decide

/-- C7: `restrictTo(roles)` fails with 403 Forbidden exactly when the
attached identity's role is not a member of the allowed roles; on failure the
downstream handler is never invoked (the outcome is the fixed error for every
handler); when the role is allowed, the handler runs. -/
theorem restrictTo_forbidden_iff_role_not_allowed {α : Type}
    (roles : List String) (u : User) (handler : User → α) :
    (runRestricted roles u handler = .error ⟨some 403, .forbidden⟩ ↔
      u.role ∉ roles)
    ∧ (u.role ∉ roles → ∀ handler2 : User → α,
        runRestricted roles u handler2 = .error ⟨some 403, .forbidden⟩)
    ∧ (u.role ∈ roles → runRestricted roles u handler = .ok (handler u)) := by
  unfold runRestricted restrictTo
  by_cases h : u.role ∈ roles <;> simp [h]

/-- C7 witness: `restrictTo('admin')` on an identity with role `user` yields
403 Forbidden, whatever the downstream handler would have produced. -/
theorem restrictTo_forbidden_iff_role_not_allowed_witness :
    runRestricted ["admin"] frameUser (fun _ => (0 : Nat)) =
      .error ⟨some 403, .forbidden⟩ :=
  (restrictTo_forbidden_iff_role_not_allowed ["admin"] frameUser
    (fun _ => (0 : Nat))).2.1 (by decide) (fun _ => (0 : Nat))

/-- C4: `filter()` removes the reserved control keys page/sort/limit/fields
from a copy of the mapping, so none of them appears as a field filter in the
storage-level query, and the raw mapping itself is kept unchanged. -/
theorem filter_strips_reserved_keys (q : MongoQuery)
    (raw : List (String × QueryVal)) :
    (∀ kv ∈ (APIFeatures.filter ⟨q, raw⟩).query.filterDoc,
      kv.fst ∉ reservedKeys)
    ∧ (APIFeatures.filter ⟨q, raw⟩).queryString = raw := by
  constructor
  · intro kv hkv
    unfold APIFeatures.filter buildFilter at hkv
    rw [List.mem_map] at hkv
    obtain ⟨ab, hab, heq⟩ := hkv
    rw [List.mem_filter] at hab
    have h2 : ab.fst ∉ reservedKeys := by simpa using hab.2
    cases heq
    exact h2
  · rfl

/-- C4 witness: on a concrete query with all four reserved keys plus one
field filter, every filter entry is unreserved and the raw map is intact. -/
theorem filter_strips_reserved_keys_witness :
    (∀ kv ∈ (APIFeatures.filter ⟨{}, [("page", QueryVal.lit "2"),
        ("sort", QueryVal.lit "price"), ("limit", QueryVal.lit "5"),
        ("fields", QueryVal.lit "name"),
        ("difficulty", QueryVal.lit "easy")]⟩).query.filterDoc,
      kv.fst ∉ reservedKeys)
    ∧ (APIFeatures.filter ⟨{}, [("page", QueryVal.lit "2"),
        ("sort", QueryVal.lit "price"), ("limit", QueryVal.lit "5"),
        ("fields", QueryVal.lit "name"),
        ("difficulty", QueryVal.lit "easy")]⟩).queryString =
      [("page", QueryVal.lit "2"), ("sort", QueryVal.lit "price"),
       ("limit", QueryVal.lit "5"), ("fields", QueryVal.lit "name"),
       ("difficulty", QueryVal.lit "easy")] :=
  filter_strips_reserved_keys {} _

/-- C5: malformed (non-numeric, hence also negative) `page`/`limit` strings
fall back to the defaults page = 1 and limit = 100, giving skip = 0; the
builder is a total function, so no exception is raised and no NaN-like value
reaches the query. -/
theorem paginate_defaults_on_malformed_input (q : MongoQuery)
    (raw : List (String × QueryVal)) (ps ls : String)
    (hp : queryGet raw "page" = some (QueryVal.lit ps))
    (hl : queryGet raw "limit" = some (QueryVal.lit ls))
    (hpn : parseNatString ps = none) (hln : parseNatString ls = none) :
    (APIFeatures.paginate ⟨q, raw⟩).query.skipN = 0
    ∧ (APIFeatures.paginate ⟨q, raw⟩).query.limitN = some 100 := by
  unfold APIFeatures.paginate
  simp [parseOrDefault, hp, hl, hpn, hln]

/-- C5 witness: `page=abc&limit=-5` (non-numeric and negative) coerce to the
defaults. -/
theorem paginate_defaults_on_malformed_input_witness :
    (APIFeatures.paginate ⟨{}, [("page", QueryVal.lit "abc"),
        ("limit", QueryVal.lit "-5")]⟩).query.skipN = 0
    ∧ (APIFeatures.paginate ⟨{}, [("page", QueryVal.lit "abc"),
        ("limit", QueryVal.lit "-5")]⟩).query.limitN = some 100 :=
  paginate_defaults_on_malformed_input {} _ "abc" "-5"
    (by decide) (by decide) (by decide) (by decide)

/-- C3: a comparison operator appearing as a nested key of an unreserved
field is rewritten to its `$`-marked Mongo form in the built filter, and no
entry of the storage-level filter carries a bare {gte,gt,lte,lt} nested key. -/
theorem filter_rewrites_comparison_ops (q : MongoQuery)
    (raw : List (String × QueryVal)) (field : String)
    (m : List (String × String)) (op x : String)
    (hmem : (field, QueryVal.ops m) ∈ raw) (hfield : field ∉ reservedKeys)
    (hop : (op, x) ∈ m) (hc : op ∈ comparisonOps) :
    ((field, rewriteOps (QueryVal.ops m)) ∈
      (APIFeatures.filter ⟨q, raw⟩).query.filterDoc)
    ∧ ("$" ++ op, x) ∈ opsList (rewriteOps (QueryVal.ops m))
    ∧ (∀ kv ∈ (APIFeatures.filter ⟨q, raw⟩).query.filterDoc,
        ∀ p ∈ nestedKeys kv.snd, p ∉ comparisonOps) := by
  refine ⟨?_, ?_, ?_⟩
  · unfold APIFeatures.filter buildFilter
    rw [List.mem_map]
    refine ⟨(field, QueryVal.ops m), ?_, rfl⟩
    rw [List.mem_filter]
    exact ⟨hmem, by simpa using hfield⟩
  · unfold rewriteOps opsList
    rw [List.mem_map]
    exact ⟨(op, x), hop, by simp [hc]⟩
  · intro kv hkv p hp
    unfold APIFeatures.filter buildFilter at hkv
    rw [List.mem_map] at hkv
    obtain ⟨ab, _, heq⟩ := hkv
    cases heq
    cases hv : ab.snd with
    | lit s => rw [hv] at hp; simp [rewriteOps, nestedKeys] at hp
    | ops mm =>
      rw [hv] at hp
      simp only [rewriteOps, nestedKeys, List.map_map, List.mem_map] at hp
      obtain ⟨cd, _, hcd⟩ := hp
      by_cases hin : cd.fst ∈ comparisonOps
      · rw [← hcd]
        simpa [hin] using dollar_prefixed_not_comparison cd.fst hin
      · rw [← hcd]
        simp [hin]

/-- C3 witness: `?difficulty=easy&price[lte]=500&page=2` — the `lte` key is
rewritten to `$lte` in the applied filter and no bare comparison key
survives. -/
theorem filter_rewrites_comparison_ops_witness :
    ((("price" : String), rewriteOps (QueryVal.ops [("lte", "500")])) ∈
      (APIFeatures.filter ⟨{}, [("difficulty", QueryVal.lit "easy"),
        ("price", QueryVal.ops [("lte", "500")]),
        ("page", QueryVal.lit "2")]⟩).query.filterDoc)
    ∧ ("$" ++ "lte", "500") ∈ opsList (rewriteOps (QueryVal.ops [("lte", "500")]))
    ∧ (∀ kv ∈ (APIFeatures.filter ⟨{}, [("difficulty", QueryVal.lit "easy"),
        ("price", QueryVal.ops [("lte", "500")]),
        ("page", QueryVal.lit "2")]⟩).query.filterDoc,
        ∀ p ∈ nestedKeys kv.snd, p ∉ comparisonOps) :=
  filter_rewrites_comparison_ops {} _ "price" [("lte", "500")] "lte" "500"
    (by decide) (by decide) (by decide) (by decide)

/-- C1 counterexample: with a valid, unexpired reset token but an invalid new
password ("short" fails the 8-character minimum), `save()` throws and nothing
is persisted: the stored hash and expiry are NOT cleared, and the very same
token presented a second time succeeds instead of failing with
InvalidOrExpiredToken. -/
theorem resetPassword_failed_update_keeps_token_cex :
    (resetPassword resetDb "tok" "short" "short" 500).result =
      .error ⟨none, .validationFailed⟩
    ∧ (resetPassword resetDb "tok" "short" "short" 500).db = resetDb
    ∧ (resetPassword (resetPassword resetDb "tok" "short" "short" 500).db
        "tok" "newlongpassword" "newlongpassword" 600).result = .ok () := by
  decide

/-- A failed reset lookup yields the 400 InvalidOrExpiredToken error and
leaves the store untouched. -/
theorem resetPassword_of_find_none (db : List User) (tok pw pwc : String)
    (now : Nat) (h : resetFind db (sha256Hex tok) now = none) :
    resetPassword db tok pw pwc now =
      ⟨.error ⟨some 400, .invalidOrExpiredToken⟩, db⟩ := by
  unfold resetPassword
  simp only [h]

/-- C1 amended: when the password update passes validation, the clear of the
stored hash/expiry is persisted atomically with it, and the same token
presented a second time (against a store where no other user carries that
hash) fails with 400 InvalidOrExpiredToken. -/
theorem resetPassword_single_use_on_success
    (db : List User) (tok pw pw2 pwc2 : String) (now now2 : Nat) (u : User)
    (hfind : resetFind db (sha256Hex tok) now = some u)
    (huniq : ∀ v ∈ db, v.passwordResetToken = some (sha256Hex tok) → v.id = u.id)
    (hlen : 8 ≤ pw.data.length) :
    (resetPassword db tok pw pw now).result = .ok ()
    ∧ (∀ v ∈ (resetPassword db tok pw pw now).db, v.id = u.id →
        v.passwordResetToken = none ∧ v.passwordResetExpires = none)
    ∧ (resetPassword (resetPassword db tok pw pw now).db tok pw2 pwc2 now2).result
        = .error ⟨some 400, .invalidOrExpiredToken⟩ := by
  have hvalid : validPasswordPair pw pw = true := by
    simp only [validPasswordPair, Bool.and_eq_true, beq_self_eq_true, true_and,
      decide_eq_true_eq]
    exact hlen
  have hmain : resetPassword db tok pw pw now =
      ⟨.ok (), persist db { u with
        password := bcryptHash pw
        passwordConfirm := none
        passwordResetToken := none
        passwordResetExpires := none
        passwordChangedAt := some (now - 1000) }⟩ := by
    unfold resetPassword
    simp only [hfind, hvalid, if_true]
  refine ⟨by rw [hmain], ?_, ?_⟩
  · intro v hv hvid
    rw [hmain] at hv
    simp only [persist, List.mem_map] at hv
    obtain ⟨w, _, hweq⟩ := hv
    by_cases hc : w.id = u.id
    · rw [← hweq]
      simp [hc]
    · exfalso
      rw [← hweq] at hvid
      simp [hc] at hvid
  · have hnone : resetFind (resetPassword db tok pw pw now).db
        (sha256Hex tok) now2 = none := by
      rw [hmain]
      unfold resetFind
      rw [List.find?_eq_none]
      intro x hx
      simp only [persist, List.mem_map] at hx
      obtain ⟨w, hw, hweq⟩ := hx
      by_cases hc : w.id = u.id
      · rw [← hweq]
        simp [hc]
      · rw [← hweq]
        simp only [hc, if_false]
        have hwt : w.passwordResetToken ≠ some (sha256Hex tok) :=
          fun h => hc (huniq w hw h)
        simp [hwt]
    rw [resetPassword_of_find_none _ _ _ _ _ hnone]

/-- C1 witness: after a successful reset with the fixture token, presenting
the same token again fails with 400 InvalidOrExpiredToken. -/
theorem resetPassword_single_use_on_success_witness :
    (resetPassword (resetPassword resetDb "tok" "newlongpassword"
        "newlongpassword" 500).db "tok" "othernewpass" "othernewpass"
        600).result = .error ⟨some 400, .invalidOrExpiredToken⟩ :=
  (resetPassword_single_use_on_success resetDb "tok" "newlongpassword"
    "othernewpass" "othernewpass" 500 600 resetUser (by decide) (by decide)
    (by decide)).2.2

/-- C2 counterexample: user 2's password changed at 1500 ms, strictly later
than the credential's issue instant (iat = 1 s = 1000 ms), yet protect
accepts the credential: the whole-second truncation of
`changedPasswordAfter` misses sub-second differences. -/
theorem protect_subsecond_password_change_cex :
    1 * 1000 < 1500
    ∧ staleUser.passwordChangedAt = some 1500
    ∧ staleEnv.verify "tok2" = some ⟨2, 1⟩
    ∧ protect staleEnv (some "Bearer tok2") = .ok staleUser := by
  decide

/-- C2 amended: a verified credential is rejected with 401 whenever the
user's password-change timestamp, truncated to whole seconds
(`parseInt(getTime()/1000)`), is strictly later than the credential's `iat`;
in particular any credential issued at least one full second before the
change is rejected. -/
theorem protect_rejects_token_issued_before_password_change
    (env : ProtectEnv) (hdr : Option String) (t : String) (p : JwtPayload)
    (u : User) (ms : Nat)
    (htok : tokenFromHeader hdr = some t) (hne : ¬ t = "")
    (hver : env.verify t = some p)
    (hfind : findById env.db p.id = some u)
    (hch : u.passwordChangedAt = some ms)
    (hlate : p.iat < ms / 1000) :
    protect env hdr = .error ⟨some 401, .passwordChanged⟩ := by
  unfold protect
  rw [htok]
  simp [hne, hver, hfind, changedPasswordAfter, hch, hlate]

/-- C2 witness: user 3 changed the password at 5000 ms, a full 4 s after the
credential's issue time (iat = 1 s); protect rejects with 401. -/
theorem protect_rejects_token_issued_before_password_change_witness :
    protect staleEnv3 (some "Bearer tok3") =
      .error ⟨some 401, .passwordChanged⟩ :=
  protect_rejects_token_issued_before_password_change staleEnv3
    (some "Bearer tok3") "tok3" ⟨3, 1⟩ staleUser3 5000 (by decide) (by decide)
    (by decide) (by decide) (by decide) (by decide)

/-- C6 counterexample: the header "BearerX tok6" does not start with the
scheme prefix "Bearer " (with the space), yet protect extracts the token
"tok6" from it and authenticates successfully. -/
theorem protect_bearer_prefix_no_space_cex :
    jsStartsWith "BearerX tok6" "Bearer " = false
    ∧ tokenFromHeader (some "BearerX tok6") = some "tok6"
    ∧ protect plainEnv (some "BearerX tok6") = .ok plainUser := by
  decide

/-- C6 amended: the token is extracted from an authorization header that
starts with "Bearer" (no trailing space required) as the second
space-separated component, and protect fails with 401 when the header is
absent, lacks the "Bearer" prefix, or yields no (or an empty) second
component. -/
theorem protect_bearer_extraction_amended (env : ProtectEnv)
    (hdr : Option String) :
    (tokenFromHeader hdr = hdr.bind (fun h =>
        if jsStartsWith h "Bearer" then (jsSplitSpace h).get? 1 else none))
    ∧ (hdr = none → protect env hdr = .error ⟨some 401, .notLoggedIn⟩)
    ∧ (∀ h, hdr = some h → jsStartsWith h "Bearer" = false →
        protect env hdr = .error ⟨some 401, .notLoggedIn⟩)
    ∧ (tokenFromHeader hdr = none ∨ tokenFromHeader hdr = some "" →
        protect env hdr = .error ⟨some 401, .notLoggedIn⟩) := by
  refine ⟨?_, ?_, ?_, ?_⟩
  · cases hdr <;> rfl
  · intro h
    subst h
    rfl
  · intro h hh hsw
    subst hh
    unfold protect tokenFromHeader
    simp [hsw]
  · intro hcase
    unfold protect
    rcases hcase with h1 | h1
    · rw [h1]
    · rw [h1]
      simp

/-- C6 witness: a header without the "Bearer" prefix is rejected with 401. -/
theorem protect_bearer_extraction_amended_witness :
    protect plainEnv (some "Token abc") = .error ⟨some 401, .notLoggedIn⟩ :=
  (protect_bearer_extraction_amended plainEnv (some "Token abc")).2.2.1
    "Token abc" rfl (by decide)

-- projection helpers for the forgot-password store reasoning
theorem clearResetFields_id (u : User) : (clearResetFields u).id = u.id := rfl

theorem clearResetFields_token (u : User) :
    (clearResetFields u).passwordResetToken = none := rfl

theorem clearResetFields_expires (u : User) :
    (clearResetFields u).passwordResetExpires = none := rfl

theorem createPasswordResetToken_snd_id (u : User) (tok : String) (now : Nat) :
    ((createPasswordResetToken u tok now).snd).id = u.id := rfl

/-- C8: forgot-password with an unknown email fails with 404 and has no side
effects (store unchanged, sendEmail never called); when email delivery fails
after the token was persisted, the stored hash and expiry are cleared again
before the handler returns, and the error reaches the client as a 500 (the
`AppError` is constructed without a status code — the 500 sits in the `next`
call — and the global handler defaults it to 500). -/
theorem forgotPassword_unknown_email_and_email_failure
    (db : List User) (email newToken : String) (now : Nat) (emailOk : Bool)
    (u : User) :
    (findOneByEmail db email = none →
      forgotPassword db email newToken now emailOk =
        ⟨.error ⟨some 404, .noUserForEmail⟩, db, false⟩)
    ∧ (findOneByEmail db email = some u →
      (forgotPassword db email newToken now false).result =
        .error ⟨none, .emailSendFailed⟩
      ∧ effectiveStatus ⟨none, .emailSendFailed⟩ = 500
      ∧ ∀ v ∈ (forgotPassword db email newToken now false).db, v.id = u.id →
          v.passwordResetToken = none ∧ v.passwordResetExpires = none) := by
  constructor
  · intro h
    unfold forgotPassword
    rw [h]
  · intro h
    have heq : forgotPassword db email newToken now false =
        ⟨.error ⟨none, .emailSendFailed⟩,
          persist (persist db (createPasswordResetToken u newToken now).snd)
            (clearResetFields (createPasswordResetToken u newToken now).snd),
          true⟩ := by
      unfold forgotPassword
      rw [h]
      rfl
    refine ⟨by rw [heq], rfl, ?_⟩
    intro v hv hvid
    rw [heq] at hv
    simp only [persist, List.mem_map, clearResetFields_id,
      createPasswordResetToken_snd_id] at hv
    obtain ⟨w, hw, hweq⟩ := hv
    by_cases hc : w.id = u.id
    · rw [← hweq]
      simp [hc, clearResetFields_token, clearResetFields_expires]
    · exfalso
      rw [← hweq] at hvid
      rw [if_neg hc] at hvid
      obtain ⟨w0, _, hw0⟩ := hw
      by_cases hc0 : w0.id = u.id
      · rw [← hw0] at hc
        simp [createPasswordResetToken, hc0] at hc
      · rw [← hw0] at hvid
        simp [hc0] at hvid

/-- C8 witness: on a one-user store, an unknown email gives the 404 outcome
with nothing persisted and no email attempted; a failing delivery for the
known email surfaces the email-failure error. -/
theorem forgotPassword_unknown_email_and_email_failure_witness :
    forgotPassword frameDb "nobody@example.com" "rnd" 100 true =
      ⟨.error ⟨some 404, .noUserForEmail⟩, frameDb, false⟩
    ∧ (forgotPassword frameDb "eve@example.com" "rnd" 100 false).result =
      .error ⟨none, .emailSendFailed⟩ :=
  ⟨(forgotPassword_unknown_email_and_email_failure frameDb
      "nobody@example.com" "rnd" 100 true frameUser).1 (by decide),
   ((forgotPassword_unknown_email_and_email_failure frameDb
      "eve@example.com" "rnd" 100 false frameUser).2 (by decide)).1⟩

/-- C9 counterexample: a body that contains the `password` key with the
empty-string value is NOT rejected — the guard tests truthiness, not key
presence — so updateMe answers success instead of a 400 error. -/
theorem updateMe_empty_password_key_cex :
    (bodyGet [("password", JsVal.vStr "")] "password").isSome = true
    ∧ (updateMe frameDb 9 [("password", JsVal.vStr "")]).result = .ok () := by
  decide

-- applyUserUpdate never touches the document id
theorem applyUserUpdate_id (u : User) (upd : List (String × JsVal)) :
    (applyUserUpdate u upd).id = u.id := rfl

/-- C9 amended: a body carrying a TRUTHY `password` or `passwordConfirm`
value is rejected with 400 and the store is untouched; otherwise only the
`name` and `email` fields of the stored user can change — every other field
of every stored user is preserved, whatever extra keys the body contains. -/
theorem updateMe_guard_and_frame
    (db : List User) (uid : Nat) (body : List (String × JsVal)) :
    ((((bodyGet body "password").map JsVal.truthy).getD false = true ∨
      ((bodyGet body "passwordConfirm").map JsVal.truthy).getD false = true) →
      updateMe db uid body =
        ⟨.error ⟨some 400, .passwordUpdateNotAllowed⟩, db⟩)
    ∧ (((bodyGet body "password").map JsVal.truthy).getD false = false →
       ((bodyGet body "passwordConfirm").map JsVal.truthy).getD false = false →
       ∀ v ∈ (updateMe db uid body).db, ∃ w ∈ db,
         v.id = w.id ∧ v.photo = w.photo ∧ v.role = w.role ∧
         v.password = w.password ∧ v.passwordConfirm = w.passwordConfirm ∧
         v.passwordChangedAt = w.passwordChangedAt ∧
         v.passwordResetToken = w.passwordResetToken ∧
         v.passwordResetExpires = w.passwordResetExpires ∧
         v.active = w.active) := by
  constructor
  · intro hguard
    unfold updateMe
    rcases hguard with h | h <;> simp [h]
  · intro h1 h2 v hv
    have hphoto := bodyGet_filterObj_eq_none body ["name", "email"] "photo"
      (by decide)
    have hrole := bodyGet_filterObj_eq_none body ["name", "email"] "role"
      (by decide)
    have hpw := bodyGet_filterObj_eq_none body ["name", "email"] "password"
      (by decide)
    have htok := bodyGet_filterObj_eq_none body ["name", "email"]
      "passwordResetToken" (by decide)
    have hexp := bodyGet_filterObj_eq_none body ["name", "email"]
      "passwordResetExpires" (by decide)
    have hcha := bodyGet_filterObj_eq_none body ["name", "email"]
      "passwordChangedAt" (by decide)
    have hact := bodyGet_filterObj_eq_none body ["name", "email"] "active"
      (by decide)
    unfold updateMe at hv
    rw [h1, h2] at hv
    simp only [Bool.or_self, Bool.false_eq_true, if_false] at hv
    cases hfind : findById db uid with
    | none =>
      rw [hfind] at hv
      exact ⟨v, hv, rfl, rfl, rfl, rfl, rfl, rfl, rfl, rfl, rfl⟩
    | some user =>
      rw [hfind] at hv
      simp only [persist, List.mem_map, applyUserUpdate_id] at hv
      obtain ⟨w, hw, hweq⟩ := hv
      by_cases hc : w.id = user.id
      · refine ⟨user, List.mem_of_find?_eq_some hfind, ?_⟩
        rw [← hweq]
        simp [hc, applyUserUpdate, hphoto, hrole, hpw, htok, hexp, hcha, hact]
      · exact ⟨w, hw, by rw [← hweq]; simp [hc]⟩

/-- C9 witness: a truthy password in the body is rejected with 400 and the
store is unchanged. -/
theorem updateMe_guard_and_frame_witness :
    updateMe frameDb 9 [("password", JsVal.vStr "secret123")] =
      ⟨.error ⟨some 400, .passwordUpdateNotAllowed⟩, frameDb⟩ :=
  (updateMe_guard_and_frame frameDb 9
    [("password", JsVal.vStr "secret123")]).1 (Or.inl (by decide))

-- after deleteMe, the id no longer resolves through the active-filter hook
theorem findById_deleteMe_none (db : List User) (uid : Nat) :
    findById (deleteMe db uid) uid = none := by
  unfold deleteMe
  cases hfind : findById db uid with
  | none => exact hfind
  | some u =>
    have hu := List.find?_some hfind
    simp only [Bool.and_eq_true, decide_eq_true_eq] at hu
    unfold findById
    rw [List.find?_eq_none]
    intro x hx
    simp only [persist, List.mem_map] at hx
    obtain ⟨w, hw, hweq⟩ := hx
    by_cases hc : w.id = u.id
    · rw [← hweq]
      simp [hc]
    · rw [← hweq]
      simp only [hc, if_false]
      simp only [Bool.and_eq_true, decide_eq_true_eq, not_and]
      intro hwid
      exfalso
      exact hc (hwid.trans hu.1.symm)

/-- C10: every find-family lookup excludes inactive users (the
`pre(/^find/)` hook), so after deleteMe deactivates the account, the
account's still-verifiable credential is rejected by protect with 401
userGone on every subsequent request. -/
theorem deleteMe_then_protect_unauthenticated
    (db : List User) (uid : Nat) (verify : String → Option JwtPayload)
    (hdr : Option String) (t : String) (iat : Nat)
    (htok : tokenFromHeader hdr = some t) (hne : ¬ t = "")
    (hver : verify t = some ⟨uid, iat⟩) :
    (∀ (d : List User) (u : User), findById d uid = some u → u.active = true)
    ∧ protect ⟨verify, deleteMe db uid⟩ hdr = .error ⟨some 401, .userGone⟩ := by
  constructor
  · intro d u h
    have hu := List.find?_some h
    simp only [Bool.and_eq_true, decide_eq_true_eq] at hu
    exact hu.2
  · unfold protect
    rw [htok]
    simp [hne, hver, findById_deleteMe_none]

/-- C10 witness: user 10 deletes the account; the previously valid token
"tok10" is then rejected with 401 userGone. -/
theorem deleteMe_then_protect_unauthenticated_witness :
    protect ⟨goneVerify, deleteMe goneDb 10⟩ (some "Bearer tok10") =
      .error ⟨some 401, .userGone⟩ :=
  (deleteMe_then_protect_unauthenticated goneDb 10 goneVerify
    (some "Bearer tok10") "tok10" 10 (by decide) (by decide) (by decide)).2
